import Mathlib

/-!
# Verification of the SCRU128 identifier library (Python implementation)

Shallow embedding of `scru128/__init__.py`: the `Scru128Id` value class with
its field packing, base-36 text codec and comparison operators, and the
`Scru128Generator` counter/timestamp state machine
(`generate_or_abort_core` / `generate_or_reset_core`).

Machine integers are modelled as `Nat` (Python ints are unbounded; every
range check of the source is reproduced explicitly).  Fallible operations
(`ValueError` raises) return an explicit result constructor carrying the
Python error message.  The injected randomness source is modelled as a
stream `r : Nat → Nat` consumed one call at a time; `getrandbits r i k`
is the value of the i-th call requesting `k` bits, reduced modulo `2 ^ k`
to reflect the documented contract of `secrets.randbits(k)` /
`random.getrandbits(k)` (an unsigned integer of the requested bit width).
-/

namespace Scru128

/-- The maximum value of the 48-bit timestamp field. -/
def MAX_TIMESTAMP : Nat := 0xFFFFFFFFFFFF

/-- The maximum value of the 24-bit counter_hi field. -/
def MAX_COUNTER_HI : Nat := 0xFFFFFF

/-- The maximum value of the 24-bit counter_lo field. -/
def MAX_COUNTER_LO : Nat := 0xFFFFFF

/-- The maximum 128-bit unsigned integer value. -/
def MAX_UINT128 : Nat := 0xFFFFFFFFFFFFFFFFFFFFFFFFFFFFFFFF

/-- Digit characters used in the Base36 notation. -/
def DIGITS : String := "0123456789ABCDEFGHIJKLMNOPQRSTUVWXYZ"

/-- The default timestamp rollback allowance (10 seconds). -/
def DEFAULT_ROLLBACK_ALLOWANCE : Nat := 10000

/-- A SCRU128 ID: a wrapper around the 128-bit unsigned integer value,
mirroring `Scru128Id.__slots__ = "_value"`. -/
structure Scru128Id where
  val : Nat
deriving DecidableEq, Repr

/-- Result of a fallible `Scru128Id` construction: either the object or the
`ValueError` message raised by the Python code. -/
inductive IdResult where
  | error (msg : String)
  | ok (id : Scru128Id)
deriving DecidableEq, Repr

/-- `Scru128Id.__init__`: accepts the value iff it is a 128-bit unsigned
integer (the non-negativity half of the Python check is implicit in `Nat`). -/
def Scru128Id.ofInt (int_value : Nat) : IdResult :=
  if int_value ≤ MAX_UINT128 then .ok ⟨int_value⟩
  else .error "not a 128-bit unsigned integer"

/-- `Scru128Id.from_fields`: checks each field against its bit width, then
packs the fields with shift/OR exactly as the source does. -/
def Scru128Id.from_fields (timestamp counter_hi counter_lo entropy : Nat) :
    IdResult :=
  if timestamp ≤ MAX_TIMESTAMP ∧ counter_hi ≤ MAX_COUNTER_HI ∧
      counter_lo ≤ MAX_COUNTER_LO ∧ entropy ≤ 0xFFFFFFFF then
    Scru128Id.ofInt
      ((timestamp <<< 80) ||| (counter_hi <<< 56) ||| (counter_lo <<< 32) |||
        entropy)
  else .error "invalid field value"

/-- The character class of the regex `^[0-9A-Za-z]{25}$` used by
`Scru128Id.from_str`. -/
def isBase36 (c : Char) : Bool :=
  (decide ('0' ≤ c) && decide (c ≤ '9')) ||
  (decide ('A' ≤ c) && decide (c ≤ 'Z')) ||
  (decide ('a' ≤ c) && decide (c ≤ 'z'))

/-- The numeric value CPython's `int(s, 36)` assigns to one digit character
(case-insensitive). Only meaningful on characters accepted by `isBase36`. -/
def digitVal (c : Char) : Nat :=
  if '0' ≤ c ∧ c ≤ '9' then c.toNat - '0'.toNat
  else if 'A' ≤ c ∧ c ≤ 'Z' then c.toNat - 'A'.toNat + 10
  else c.toNat - 'a'.toNat + 10

/-- The base-36 positional parse performed by `int(str_value, 36)` on a
string already known to consist of `[0-9A-Za-z]` characters. -/
def parse36 (cs : List Char) : Nat :=
  cs.foldl (fun acc c => acc * 36 + digitVal c) 0

/-- `Scru128Id.from_str`: the regex gate `^[0-9A-Za-z]{25}$` followed by
`int(str_value, 36)` fed to the 128-bit-checked constructor.  CPython's `$`
(without `re.MULTILINE`) also matches just before a single newline at the
end of the string, so the gate accepts 25 digit characters optionally
followed by one trailing `'\n'`; `int(s, 36)` then strips that surrounding
whitespace, parsing the first 25 characters in both shapes. -/
def Scru128Id.from_str (str_value : String) : IdResult :=
  if (str_value.data.length = 25 ∧ str_value.data.all isBase36) ∨
      (str_value.data.length = 26 ∧ str_value.data.getLast? = some '\n' ∧
        (str_value.data.take 25).all isBase36) then
    Scru128Id.ofInt (parse36 (str_value.data.take 25))
  else .error "invalid string representation"

/-- `Scru128Id.timestamp`: the 48-bit timestamp field. -/
def Scru128Id.timestamp (x : Scru128Id) : Nat :=
  (x.val >>> 80) &&& MAX_TIMESTAMP

/-- `Scru128Id.counter_hi`: the 24-bit counter_hi field. -/
def Scru128Id.counter_hi (x : Scru128Id) : Nat :=
  (x.val >>> 56) &&& MAX_COUNTER_HI

/-- `Scru128Id.counter_lo`: the 24-bit counter_lo field. -/
def Scru128Id.counter_lo (x : Scru128Id) : Nat :=
  (x.val >>> 32) &&& MAX_COUNTER_LO

/-- `Scru128Id.entropy`: the 32-bit entropy field. -/
def Scru128Id.entropy (x : Scru128Id) : Nat :=
  x.val &&& 0xFFFFFFFF

/-- One digit character of the canonical encoding: `DIGITS[rem]`. -/
def digitAt (rem : Nat) : Char :=
  DIGITS.data.getD rem '0'

/-- The digit buffer built by `Scru128Id.__str__`: `k` base-36 digits of
`n`, most significant first (`buffer[24 - i]` receives the digit of the
i-th `divmod` step). -/
def toDigits (n : Nat) : Nat → List Char
  | 0 => []
  | k + 1 => toDigits (n / 36) k ++ [digitAt (n % 36)]

/-- `Scru128Id.__str__`: the 25-digit canonical string representation. -/
def Scru128Id.str (x : Scru128Id) : String :=
  ⟨toDigits x.val 25⟩

/-- `Scru128Id.__eq__`: equality of the underlying 128-bit integers. -/
def Scru128Id.beq (a b : Scru128Id) : Prop :=
  a.val = b.val

/-- `Scru128Id.__lt__`: numeric order of the underlying 128-bit integers. -/
def Scru128Id.lt (a b : Scru128Id) : Prop :=
  a.val < b.val

/-- `Scru128Generator.Status`: the status code recorded in `_last_status`. -/
inductive Status where
  | NOT_EXECUTED
  | NEW_TIMESTAMP
  | COUNTER_LO_INC
  | COUNTER_HI_INC
  | TIMESTAMP_INC
  | CLOCK_ROLLBACK
deriving DecidableEq, Repr

/-- The mutable state of a `Scru128Generator`: `_timestamp`, `_counter_hi`,
`_counter_lo`, `_ts_counter_hi` and `_last_status`. -/
structure GenState where
  timestamp : Nat
  counter_hi : Nat
  counter_lo : Nat
  ts_counter_hi : Nat
  last_status : Status
deriving DecidableEq, Repr

/-- The zero-initialized state set up by `Scru128Generator.__init__`. -/
def GenState.init : GenState :=
  ⟨0, 0, 0, 0, .NOT_EXECUTED⟩

/-- The i-th call of `self._rng.getrandbits(k)` on the stream `r`: an
unsigned integer of `k` bits, per the documented rng contract. -/
def getrandbits (r : Nat → Nat) (i k : Nat) : Nat :=
  r i % 2 ^ k

/-- Outcome of one `generate_or_abort_core` / `generate_or_reset_core`
call: a raised `ValueError` (with its message), the `None` return upon
significant rollback, or the generated ID. -/
inductive GenResult where
  | error (msg : String)
  | aborted
  | ok (id : Scru128Id)
deriving DecidableEq, Repr

/-- The `if timestamp > self._timestamp / elif ... / else` decision block of
`generate_or_abort_core` (steps 2-4 of the algorithm), with the rng call
index threaded through.  `none` is the significant-rollback `else` arm. -/
def coreBranch (r : Nat → Nat) (i : Nat) (s : GenState) (ts ra : Nat) :
    Option (GenState × Nat) :=
  if ts > s.timestamp then
    some ({ s with
            timestamp := ts,
            counter_lo := getrandbits r i 24,
            last_status := .NEW_TIMESTAMP }, i + 1)
  else if ts + ra > s.timestamp then
    if s.counter_lo + 1 > MAX_COUNTER_LO then
      if s.counter_hi + 1 > MAX_COUNTER_HI then
        some ({ s with
                counter_hi := 0,
                timestamp := s.timestamp + 1,
                counter_lo := getrandbits r i 24,
                last_status := .TIMESTAMP_INC }, i + 1)
      else
        some ({ s with
                counter_lo := 0,
                counter_hi := s.counter_hi + 1,
                last_status := .COUNTER_HI_INC }, i)
    else
      some ({ s with
              counter_lo := s.counter_lo + 1,
              last_status := .COUNTER_LO_INC }, i)
  else none

/-- The counter_hi reseed step of `generate_or_abort_core` (step 5):
reseed when at least 1000 ms elapsed since the watermark, or when the
watermark shows counter_hi has never been seeded. -/
def reseedStep (r : Nat → Nat) (i : Nat) (s : GenState) : GenState × Nat :=
  if (s.timestamp : Int) - (s.ts_counter_hi : Int) ≥ 1000 ∨ s.ts_counter_hi < 1
  then
    ({ s with
       ts_counter_hi := s.timestamp,
       counter_hi := getrandbits r i 24 }, i + 1)
  else (s, i)

/-- `Scru128Generator.generate_or_abort_core`.  Arguments are `Int` because
the Python validation must also reject negative inputs; after validation the
values are the corresponding naturals.  Returns the result together with the
post-call state and rng index (Python mutates `self` in place, so a raise
from `from_fields` leaves the earlier mutations behind). -/
def generate_or_abort_core (r : Nat → Nat) (i : Nat) (s : GenState)
    (timestamp rollback_allowance : Int) : GenResult × GenState × Nat :=
  if ¬(1 ≤ timestamp ∧ timestamp ≤ (MAX_TIMESTAMP : Int)) then
    (.error "`timestamp` must be a 48-bit positive integer", s, i)
  else if ¬(0 ≤ rollback_allowance ∧ rollback_allowance ≤ (MAX_TIMESTAMP : Int))
  then
    (.error "`rollback_allowance` out of reasonable range", s, i)
  else
    match coreBranch r i s timestamp.toNat rollback_allowance.toNat with
    | none => (.aborted, s, i)
    | some (s2, i2) =>
      let p := reseedStep r i2 s2
      match Scru128Id.from_fields p.1.timestamp p.1.counter_hi p.1.counter_lo
          (getrandbits r p.2 32) with
      | .error m => (.error m, p.1, p.2 + 1)
      | .ok v => (.ok v, p.1, p.2 + 1)

/-- `Scru128Generator.generate_or_reset_core`: delegate to the abort-policy
core; upon `None`, clear `_timestamp` and `_ts_counter_hi`, run the core once
more, and record `CLOCK_ROLLBACK`.  A raise from the second run propagates
before `_last_status` is assigned; the `assert value is not None` fires after
it is assigned. -/
def generate_or_reset_core (r : Nat → Nat) (i : Nat) (s : GenState)
    (timestamp rollback_allowance : Int) : GenResult × GenState × Nat :=
  match generate_or_abort_core r i s timestamp rollback_allowance with
  | (.aborted, s1, i1) =>
    let s1' : GenState := { s1 with timestamp := 0, ts_counter_hi := 0 }
    match generate_or_abort_core r i1 s1' timestamp rollback_allowance with
    | (.error m, s2, i2) => (.error m, s2, i2)
    | (.aborted, s2, i2) =>
      (.error "AssertionError",
        { s2 with last_status := .CLOCK_ROLLBACK }, i2)
    | (.ok v, s2, i2) =>
      (.ok v, { s2 with last_status := .CLOCK_ROLLBACK }, i2)
  | out => out

/-- A sequence of `generate_or_reset_core` calls on one generator, one call
per listed timestamp, with a fixed rollback allowance; collects each call's
result together with the state it left behind. -/
def runReset (r : Nat → Nat) (ra : Int) :
    List Int → GenState → Nat → List (GenResult × GenState) × GenState × Nat
  | [], s, i => ([], s, i)
  | t :: ts, s, i =>
    match generate_or_reset_core r i s t ra with
    | (v, s', i') =>
      let rest := runReset r ra ts s' i'
      ((v, s') :: rest.1, rest.2)

/-- The identifiers among a list of call outcomes. -/
def okIds (outs : List (GenResult × GenState)) : List Scru128Id :=
  outs.filterMap fun p =>
    match p.1 with
    | .ok v => some v
    | _ => none

/-- Whether a call outcome carries an identifier. -/
def GenResult.isOk : GenResult → Bool
  | .ok _ => true
  | _ => false

/-- The monotone 96-bit prefix (timestamp, counter_hi, counter_lo) encoded
by a generator state. -/
def GenState.key (s : GenState) : Nat :=
  (s.timestamp * 2 ^ 24 + s.counter_hi) * 2 ^ 24 + s.counter_lo

/-- State shape left behind by every successful `generate_or_abort_core`
call: fields within their widths, a positive seeded watermark, and less
than 1000 ms since the last counter_hi reseed. -/
def Settled (s : GenState) : Prop :=
  1 ≤ s.timestamp ∧ s.timestamp ≤ MAX_TIMESTAMP ∧
  s.counter_hi ≤ MAX_COUNTER_HI ∧ s.counter_lo ≤ MAX_COUNTER_LO ∧
  1 ≤ s.ts_counter_hi ∧ s.timestamp < s.ts_counter_hi + 1000

instance : DecidableRel Scru128Id.lt := fun a b =>
  inferInstanceAs (Decidable (a.val < b.val))

/-! ## Arithmetic facts about the field packing -/

lemma pack_eq {t ch cl e : Nat} (hch : ch < 2 ^ 24) (hcl : cl < 2 ^ 24)
    (he : e < 2 ^ 32) :
    (t <<< 80) ||| (ch <<< 56) ||| (cl <<< 32) ||| e =
      t * 2 ^ 80 + ch * 2 ^ 56 + cl * 2 ^ 32 + e := by
  have h1 : (cl <<< 32) ||| e = 2 ^ 32 * cl + e := by
    rw [Nat.shiftLeft_eq, Nat.mul_comm]
    exact (Nat.mul_add_lt_is_or he cl).symm
  have h2 : (ch <<< 56) ||| (2 ^ 32 * cl + e) =
      2 ^ 56 * ch + (2 ^ 32 * cl + e) := by
    rw [Nat.shiftLeft_eq, Nat.mul_comm]
    exact (Nat.mul_add_lt_is_or (by omega) ch).symm
  have h3 : (t <<< 80) ||| (2 ^ 56 * ch + (2 ^ 32 * cl + e)) =
      2 ^ 80 * t + (2 ^ 56 * ch + (2 ^ 32 * cl + e)) := by
    rw [Nat.shiftLeft_eq, Nat.mul_comm]
    exact (Nat.mul_add_lt_is_or (by omega) t).symm
  rw [Nat.lor_assoc, Nat.lor_assoc, h1, h2, h3]
  ring

lemma timestamp_eq (x : Scru128Id) : x.timestamp = x.val / 2 ^ 80 % 2 ^ 48 := by
  show x.val >>> 80 &&& MAX_TIMESTAMP = _
  have h : MAX_TIMESTAMP = 2 ^ 48 - 1 := by decide
  rw [h, Nat.and_pow_two_sub_one_eq_mod, Nat.shiftRight_eq_div_pow]

lemma counter_hi_eq (x : Scru128Id) :
    x.counter_hi = x.val / 2 ^ 56 % 2 ^ 24 := by
  show x.val >>> 56 &&& MAX_COUNTER_HI = _
  have h : MAX_COUNTER_HI = 2 ^ 24 - 1 := by decide
  rw [h, Nat.and_pow_two_sub_one_eq_mod, Nat.shiftRight_eq_div_pow]

lemma counter_lo_eq (x : Scru128Id) :
    x.counter_lo = x.val / 2 ^ 32 % 2 ^ 24 := by
  show x.val >>> 32 &&& MAX_COUNTER_LO = _
  have h : MAX_COUNTER_LO = 2 ^ 24 - 1 := by decide
  rw [h, Nat.and_pow_two_sub_one_eq_mod, Nat.shiftRight_eq_div_pow]

lemma entropy_eq (x : Scru128Id) : x.entropy = x.val % 2 ^ 32 := by
  show x.val &&& 0xFFFFFFFF = _
  have h : (0xFFFFFFFF : Nat) = 2 ^ 32 - 1 := by decide
  rw [h, Nat.and_pow_two_sub_one_eq_mod]

/-- `from_fields` on in-range fields yields the arithmetically packed value. -/
lemma from_fields_ok {t ch cl e : Nat} (ht : t ≤ MAX_TIMESTAMP)
    (hch : ch ≤ MAX_COUNTER_HI) (hcl : cl ≤ MAX_COUNTER_LO)
    (he : e ≤ 0xFFFFFFFF) :
    Scru128Id.from_fields t ch cl e =
      .ok ⟨t * 2 ^ 80 + ch * 2 ^ 56 + cl * 2 ^ 32 + e⟩ := by
  have hch' : ch < 2 ^ 24 := by
    have : MAX_COUNTER_HI = 2 ^ 24 - 1 := by decide
    omega
  have hcl' : cl < 2 ^ 24 := by
    have : MAX_COUNTER_LO = 2 ^ 24 - 1 := by decide
    omega
  have he' : e < 2 ^ 32 := by omega
  have ht' : t < 2 ^ 48 := by
    have : MAX_TIMESTAMP = 2 ^ 48 - 1 := by decide
    omega
  rw [Scru128Id.from_fields, if_pos ⟨ht, hch, hcl, he⟩, pack_eq hch' hcl' he',
    Scru128Id.ofInt, if_pos]
  have : MAX_UINT128 = 2 ^ 128 - 1 := by decide
  have h80 : (2 : Nat) ^ 80 = 2 ^ 80 := rfl
  omega

/-! ## The base-36 codec -/

lemma digitVal_digitAt : ∀ d < 36, digitVal (digitAt d) = d := by decide

lemma digitAt_mem : ∀ d < 36, digitAt d ∈ DIGITS.data := by decide

lemma isBase36_digitAt : ∀ d < 36, isBase36 (digitAt d) = true := by decide

lemma toDigits_length (k : Nat) : ∀ n, (toDigits n k).length = k := by
  induction k with
  | zero => intro n; rfl
  | succ k ih =>
    intro n
    simp [toDigits, ih]

lemma toDigits_mem (k : Nat) :
    ∀ n, ∀ c ∈ toDigits n k, c ∈ DIGITS.data := by
  induction k with
  | zero => intro n c hc; cases hc
  | succ k ih =>
    intro n c hc
    rw [toDigits] at hc
    rcases List.mem_append.mp hc with h | h
    · exact ih _ c h
    · rcases List.mem_singleton.mp h with rfl
      exact digitAt_mem _ (Nat.mod_lt _ (by omega))

lemma toDigits_all_isBase36 (k n : Nat) :
    (toDigits n k).all isBase36 = true := by
  rw [List.all_eq_true]
  intro c hc
  have hmem := toDigits_mem k n c hc
  revert hmem
  have : ∀ c ∈ DIGITS.data, isBase36 c = true := by decide
  exact this c

lemma foldl_toDigits (k : Nat) :
    ∀ n acc, (toDigits n k).foldl (fun a c => a * 36 + digitVal c) acc =
      acc * 36 ^ k + n % 36 ^ k := by
  induction k with
  | zero => intro n acc; simp [toDigits]; omega
  | succ k ih =>
    intro n acc
    rw [toDigits, List.foldl_append, ih]
    simp only [List.foldl_cons, List.foldl_nil]
    rw [digitVal_digitAt _ (Nat.mod_lt _ (by omega))]
    have hms : n % 36 ^ (k + 1) = n % 36 + 36 * (n / 36 % 36 ^ k) := by
      have h36 : (36 : Nat) ^ (k + 1) = 36 * 36 ^ k := by ring
      rw [h36, Nat.mod_mul]
    have hps : (36 : Nat) ^ (k + 1) = 36 ^ k * 36 := by ring
    rw [hms, hps]
    ring

lemma parse36_toDigits (k n : Nat) :
    parse36 (toDigits n k) = n % 36 ^ k := by
  rw [parse36, foldl_toDigits]
  simp

lemma uint128_lt_base36 : MAX_UINT128 < 36 ^ 25 := by decide

lemma from_str_str (x : Scru128Id) (h : x.val ≤ MAX_UINT128) :
    Scru128Id.from_str (Scru128Id.str x) = .ok x := by
  have hdata : (Scru128Id.str x).data = toDigits x.val 25 := rfl
  have hlen : (toDigits x.val 25).length = 25 := toDigits_length 25 x.val
  have htake : (toDigits x.val 25).take 25 = toDigits x.val 25 :=
    List.take_of_length_le (by rw [hlen])
  rw [Scru128Id.from_str, hdata, if_pos
    (Or.inl ⟨hlen, toDigits_all_isBase36 25 x.val⟩), htake,
    parse36_toDigits]
  have hlt : x.val < 36 ^ 25 := lt_of_le_of_lt h uint128_lt_base36
  rw [Nat.mod_eq_of_lt hlt, Scru128Id.ofInt, if_pos h]

/-- C3: for every in-range field tuple, `str (from_fields ...)` is a
25-character string over the base-36 digit alphabet, and `from_str` of that
string recovers an identifier whose four field accessors return the
original tuple. -/
theorem fields_str_roundtrip (t ch cl e : Nat) (ht : t ≤ MAX_TIMESTAMP)
    (hch : ch ≤ MAX_COUNTER_HI) (hcl : cl ≤ MAX_COUNTER_LO)
    (he : e ≤ 0xFFFFFFFF) :
    ∃ x : Scru128Id,
      Scru128Id.from_fields t ch cl e = .ok x ∧
      (Scru128Id.str x).data.length = 25 ∧
      (∀ c ∈ (Scru128Id.str x).data, c ∈ DIGITS.data) ∧
      Scru128Id.from_str (Scru128Id.str x) = .ok x ∧
      x.timestamp = t ∧ x.counter_hi = ch ∧ x.counter_lo = cl ∧
      x.entropy = e := by
  refine ⟨⟨t * 2 ^ 80 + ch * 2 ^ 56 + cl * 2 ^ 32 + e⟩,
    from_fields_ok ht hch hcl he, toDigits_length 25 _, toDigits_mem 25 _,
    from_str_str _ ?_, ?_, ?_, ?_, ?_⟩
  · show t * 2 ^ 80 + ch * 2 ^ 56 + cl * 2 ^ 32 + e ≤ MAX_UINT128
    have h1 : MAX_UINT128 = 2 ^ 128 - 1 := by decide
    have h2 : MAX_TIMESTAMP = 2 ^ 48 - 1 := by decide
    have h3 : MAX_COUNTER_HI = 2 ^ 24 - 1 := by decide
    have h4 : MAX_COUNTER_LO = 2 ^ 24 - 1 := by decide
    omega
  · rw [timestamp_eq]
    show (t * 2 ^ 80 + ch * 2 ^ 56 + cl * 2 ^ 32 + e) / 2 ^ 80 % 2 ^ 48 = t
    have h2 : MAX_TIMESTAMP = 2 ^ 48 - 1 := by decide
    have h3 : MAX_COUNTER_HI = 2 ^ 24 - 1 := by decide
    have h4 : MAX_COUNTER_LO = 2 ^ 24 - 1 := by decide
    omega
  · rw [counter_hi_eq]
    show (t * 2 ^ 80 + ch * 2 ^ 56 + cl * 2 ^ 32 + e) / 2 ^ 56 % 2 ^ 24 = ch
    have h3 : MAX_COUNTER_HI = 2 ^ 24 - 1 := by decide
    have h4 : MAX_COUNTER_LO = 2 ^ 24 - 1 := by decide
    omega
  · rw [counter_lo_eq]
    show (t * 2 ^ 80 + ch * 2 ^ 56 + cl * 2 ^ 32 + e) / 2 ^ 32 % 2 ^ 24 = cl
    have h4 : MAX_COUNTER_LO = 2 ^ 24 - 1 := by decide
    omega
  · rw [entropy_eq]
    show (t * 2 ^ 80 + ch * 2 ^ 56 + cl * 2 ^ 32 + e) % 2 ^ 32 = e
    omega

/-- Witness for C3 at the concrete tuple (1, 2, 3, 4). -/
theorem fields_str_roundtrip_witness :
    ∃ x : Scru128Id,
      Scru128Id.from_fields 1 2 3 4 = .ok x ∧
      (Scru128Id.str x).data.length = 25 ∧
      (∀ c ∈ (Scru128Id.str x).data, c ∈ DIGITS.data) ∧
      Scru128Id.from_str (Scru128Id.str x) = .ok x ∧
      x.timestamp = 1 ∧ x.counter_hi = 2 ∧ x.counter_lo = 3 ∧
      x.entropy = 4 :=
  fields_str_roundtrip 1 2 3 4 (by decide) (by decide) (by decide) (by decide)

/-- C7 (amended): `from_str` succeeds exactly on the 25-character strings
over the case-insensitive base-36 alphabet — optionally followed by one
trailing newline, which CPython's `$` anchor and `int`'s whitespace
stripping let through — whose positional base-36 value fits in 128 bits;
every other input (empty, any other length, foreign character, or
overflowing value) is rejected with an error. -/
theorem from_str_success_iff (s : String) :
    (∃ x, Scru128Id.from_str s = .ok x) ↔
      ((s.data.length = 25 ∧ ∀ c ∈ s.data, isBase36 c = true) ∨
        (s.data.length = 26 ∧ s.data.getLast? = some '\n' ∧
          ∀ c ∈ s.data.take 25, isBase36 c = true)) ∧
      parse36 (s.data.take 25) ≤ MAX_UINT128 := by
  rw [Scru128Id.from_str]
  constructor
  · rintro ⟨x, hx⟩
    split at hx
    · rename_i hcond
      rw [Scru128Id.ofInt] at hx
      split at hx
      · refine ⟨?_, by assumption⟩
        rcases hcond with h25 | h26
        · exact Or.inl ⟨h25.1, List.all_eq_true.mp h25.2⟩
        · exact Or.inr ⟨h26.1, h26.2.1, List.all_eq_true.mp h26.2.2⟩
      · cases hx
    · cases hx
  · rintro ⟨h1, h3⟩
    have hcond : (s.data.length = 25 ∧ s.data.all isBase36) ∨
        (s.data.length = 26 ∧ s.data.getLast? = some '\n' ∧
          (s.data.take 25).all isBase36) := by
      rcases h1 with h25 | h26
      · exact Or.inl ⟨h25.1, List.all_eq_true.mpr h25.2⟩
      · exact Or.inr ⟨h26.1, h26.2.1, List.all_eq_true.mpr h26.2.2⟩
    rw [if_pos hcond, Scru128Id.ofInt, if_pos h3]
    exact ⟨_, rfl⟩

/-- Counterexample to C7 as stated: the 26-character input of 25 zero
digits plus a trailing newline is accepted by `from_str` (CPython's `$`
matches before a final newline and `int(s, 36)` strips it), so `from_str`
does not fail on every input whose length differs from 25. -/
theorem from_str_success_iff_counterexample :
    Scru128Id.from_str "0000000000000000000000000\n" = .ok ⟨0⟩ ∧
    ("0000000000000000000000000\n" : String).data.length ≠ 25 := by
  constructor
  · decide
  · decide

/-! ## The canonical encoding is order-preserving -/

lemma toDigits_cons (k : Nat) :
    ∀ n, toDigits n (k + 1) =
      digitAt (n / 36 ^ k % 36) :: toDigits (n % 36 ^ k) k := by
  induction k with
  | zero =>
    intro n
    simp [toDigits]
  | succ k ih =>
    intro n
    rw [toDigits, ih (n / 36)]
    have e1 : n / 36 / 36 ^ k = n / 36 ^ (k + 1) := by
      rw [Nat.div_div_eq_div_mul]
      congr 1
      ring
    have e2 : n % 36 ^ (k + 1) / 36 = n / 36 % 36 ^ k := by
      have h : (36 : Nat) ^ (k + 1) = 36 * 36 ^ k := by ring
      rw [h, Nat.mod_mul_right_div_self]
    have e3 : n % 36 ^ (k + 1) % 36 = n % 36 :=
      Nat.mod_mod_of_dvd n (dvd_pow_self 36 (Nat.succ_ne_zero k))
    conv_rhs => rw [toDigits]
    rw [e1, e2, e3, List.cons_append]

lemma digitAt_lt_iff :
    ∀ d1 < 36, ∀ d2 < 36, (digitAt d1 < digitAt d2 ↔ d1 < d2) := by decide

lemma toDigits_lt_iff (k : Nat) :
    ∀ m n, m < 36 ^ k → n < 36 ^ k →
      (List.lt (toDigits m k) (toDigits n k) ↔ m < n) := by
  induction k with
  | zero =>
    intro m n hm hn
    constructor
    · intro h
      simp only [toDigits] at h
      cases h
    · intro h
      omega
  | succ k ih =>
    intro m n hm hn
    have hpow : (36 : Nat) ^ (k + 1) = 36 ^ k * 36 := by ring
    have hkpos : 0 < (36 : Nat) ^ k := Nat.pow_pos (by norm_num)
    have hd1 : m / 36 ^ k < 36 := by
      rw [Nat.div_lt_iff_lt_mul hkpos]
      omega
    have hd2 : n / 36 ^ k < 36 := by
      rw [Nat.div_lt_iff_lt_mul hkpos]
      omega
    have hr1 : m % 36 ^ k < 36 ^ k := Nat.mod_lt _ hkpos
    have hr2 : n % 36 ^ k < 36 ^ k := Nat.mod_lt _ hkpos
    have hdm : 36 ^ k * (m / 36 ^ k) + m % 36 ^ k = m := Nat.div_add_mod m _
    have hdn : 36 ^ k * (n / 36 ^ k) + n % 36 ^ k = n := Nat.div_add_mod n _
    rw [toDigits_cons, toDigits_cons, Nat.mod_eq_of_lt hd1,
      Nat.mod_eq_of_lt hd2]
    constructor
    · intro h
      cases h with
      | head _ _ hlt =>
        have hdd : m / 36 ^ k < n / 36 ^ k :=
          (digitAt_lt_iff _ hd1 _ hd2).mp hlt
        calc m = 36 ^ k * (m / 36 ^ k) + m % 36 ^ k := hdm.symm
          _ < 36 ^ k * (m / 36 ^ k) + 36 ^ k := Nat.add_lt_add_left hr1 _
          _ = 36 ^ k * (m / 36 ^ k + 1) := by ring
          _ ≤ 36 ^ k * (n / 36 ^ k) := Nat.mul_le_mul_left _ hdd
          _ ≤ 36 ^ k * (n / 36 ^ k) + n % 36 ^ k := Nat.le_add_right _ _
          _ = n := hdn
      | tail hn1 hn2 htail =>
        have hdd : m / 36 ^ k = n / 36 ^ k := by
          have g1 : ¬ m / 36 ^ k < n / 36 ^ k := fun hc =>
            hn1 ((digitAt_lt_iff _ hd1 _ hd2).mpr hc)
          have g2 : ¬ n / 36 ^ k < m / 36 ^ k := fun hc =>
            hn2 ((digitAt_lt_iff _ hd2 _ hd1).mpr hc)
          omega
        have hrr : m % 36 ^ k < n % 36 ^ k := (ih _ _ hr1 hr2).mp htail
        calc m = 36 ^ k * (m / 36 ^ k) + m % 36 ^ k := hdm.symm
          _ < 36 ^ k * (m / 36 ^ k) + n % 36 ^ k := Nat.add_lt_add_left hrr _
          _ = 36 ^ k * (n / 36 ^ k) + n % 36 ^ k := by rw [hdd]
          _ = n := hdn
    · intro hmn
      have hdle : m / 36 ^ k ≤ n / 36 ^ k :=
        Nat.div_le_div_right (Nat.le_of_lt hmn)
      rcases Nat.lt_or_ge (m / 36 ^ k) (n / 36 ^ k) with hlt | hge
      · exact List.lt.head _ _ ((digitAt_lt_iff _ hd1 _ hd2).mpr hlt)
      · have hdd : m / 36 ^ k = n / 36 ^ k := by omega
        apply List.lt.tail
        · intro hc
          have := (digitAt_lt_iff _ hd1 _ hd2).mp hc
          omega
        · intro hc
          have := (digitAt_lt_iff _ hd2 _ hd1).mp hc
          omega
        · apply (ih _ _ hr1 hr2).mpr
          have hsum : 36 ^ k * (m / 36 ^ k) + m % 36 ^ k <
              36 ^ k * (m / 36 ^ k) + n % 36 ^ k := by
            rw [hdm]
            calc m < n := hmn
              _ = 36 ^ k * (n / 36 ^ k) + n % 36 ^ k := hdn.symm
              _ = 36 ^ k * (m / 36 ^ k) + n % 36 ^ k := by rw [hdd]
          exact Nat.lt_of_add_lt_add_left hsum

/-- C4: identifier equality is equality of the underlying integers, and
`__lt__` agrees with the numeric order of the packed value, with the
lexicographic order of the 25-digit canonical strings, and with the
left-to-right order of the field tuples. -/
theorem ordering_agreement (a b : Scru128Id) (ha : a.val ≤ MAX_UINT128)
    (hb : b.val ≤ MAX_UINT128) :
    (a = b ↔ a.val = b.val) ∧
    (Scru128Id.lt a b ↔ a.val < b.val) ∧
    (Scru128Id.lt a b ↔ Scru128Id.str a < Scru128Id.str b) ∧
    (Scru128Id.lt a b ↔
      (a.timestamp < b.timestamp ∨
        (a.timestamp = b.timestamp ∧
          (a.counter_hi < b.counter_hi ∨
            (a.counter_hi = b.counter_hi ∧
              (a.counter_lo < b.counter_lo ∨
                (a.counter_lo = b.counter_lo ∧
                  a.entropy < b.entropy))))))) := by
  have hm : MAX_UINT128 = 2 ^ 128 - 1 := by decide
  have h36 : MAX_UINT128 < 36 ^ 25 := uint128_lt_base36
  refine ⟨Scru128Id.mk.injEq a.val b.val ▸ ⟨fun h => by cases h; rfl,
    fun h => by cases a; cases b; simpa using h⟩, Iff.rfl, ?_, ?_⟩
  · rw [Scru128Id.lt, String.lt_iff_toList_lt]
    have hda : (Scru128Id.str a).toList = toDigits a.val 25 := rfl
    have hdb : (Scru128Id.str b).toList = toDigits b.val 25 := rfl
    rw [hda, hdb]
    have hlist : (toDigits a.val 25 < toDigits b.val 25) ↔
        List.lt (toDigits a.val 25) (toDigits b.val 25) := by
      constructor
      · intro h
        exact (List.lt_iff_lex_lt _ _).mpr h
      · intro h
        exact (List.lt_iff_lex_lt _ _).mp h
    rw [hlist, toDigits_lt_iff 25 a.val b.val (by omega) (by omega)]
  · rw [Scru128Id.lt, timestamp_eq, timestamp_eq, counter_hi_eq,
      counter_hi_eq, counter_lo_eq, counter_lo_eq, entropy_eq, entropy_eq]
    have da : a.val = a.val / 2 ^ 80 % 2 ^ 48 * 2 ^ 80 +
        a.val / 2 ^ 56 % 2 ^ 24 * 2 ^ 56 + a.val / 2 ^ 32 % 2 ^ 24 * 2 ^ 32 +
        a.val % 2 ^ 32 := by omega
    have db : b.val = b.val / 2 ^ 80 % 2 ^ 48 * 2 ^ 80 +
        b.val / 2 ^ 56 % 2 ^ 24 * 2 ^ 56 + b.val / 2 ^ 32 % 2 ^ 24 * 2 ^ 32 +
        b.val % 2 ^ 32 := by omega
    omega

/-- Witness for C4 at the concrete identifiers 1 and 2. -/
theorem ordering_agreement_witness :
    ((⟨1⟩ : Scru128Id) = ⟨2⟩ ↔ (⟨1⟩ : Scru128Id).val = (⟨2⟩ : Scru128Id).val) ∧
    (Scru128Id.lt ⟨1⟩ ⟨2⟩ ↔ (⟨1⟩ : Scru128Id).val < (⟨2⟩ : Scru128Id).val) ∧
    (Scru128Id.lt ⟨1⟩ ⟨2⟩ ↔
      Scru128Id.str ⟨1⟩ < Scru128Id.str ⟨2⟩) ∧
    (Scru128Id.lt ⟨1⟩ ⟨2⟩ ↔
      ((⟨1⟩ : Scru128Id).timestamp < (⟨2⟩ : Scru128Id).timestamp ∨
        ((⟨1⟩ : Scru128Id).timestamp = (⟨2⟩ : Scru128Id).timestamp ∧
          ((⟨1⟩ : Scru128Id).counter_hi < (⟨2⟩ : Scru128Id).counter_hi ∨
            ((⟨1⟩ : Scru128Id).counter_hi = (⟨2⟩ : Scru128Id).counter_hi ∧
              ((⟨1⟩ : Scru128Id).counter_lo < (⟨2⟩ : Scru128Id).counter_lo ∨
                ((⟨1⟩ : Scru128Id).counter_lo = (⟨2⟩ : Scru128Id).counter_lo ∧
                  (⟨1⟩ : Scru128Id).entropy < (⟨2⟩ : Scru128Id).entropy))))))) :=
  ordering_agreement ⟨1⟩ ⟨2⟩ (by decide) (by decide)

/-! ## Generator invariants -/

lemma abort_core_valid_eq {t ra : Int} (r : Nat → Nat) (i : Nat)
    (s : GenState) (hv1 : 1 ≤ t ∧ t ≤ (MAX_TIMESTAMP : Int))
    (hv2 : 0 ≤ ra ∧ ra ≤ (MAX_TIMESTAMP : Int)) :
    generate_or_abort_core r i s t ra =
      match coreBranch r i s t.toNat ra.toNat with
      | none => (.aborted, s, i)
      | some (s2, i2) =>
        let p := reseedStep r i2 s2
        match Scru128Id.from_fields p.1.timestamp p.1.counter_hi
            p.1.counter_lo (getrandbits r p.2 32) with
        | .error m => (.error m, p.1, p.2 + 1)
        | .ok v => (.ok v, p.1, p.2 + 1) := by
  rw [generate_or_abort_core, if_neg (not_not_intro hv1),
    if_neg (not_not_intro hv2)]

lemma abort_core_invalid_ts (r : Nat → Nat) (i : Nat) (s : GenState)
    {t ra : Int} (h : ¬(1 ≤ t ∧ t ≤ (MAX_TIMESTAMP : Int))) :
    generate_or_abort_core r i s t ra =
      (.error "`timestamp` must be a 48-bit positive integer", s, i) := by
  rw [generate_or_abort_core, if_pos h]

lemma abort_core_invalid_ra (r : Nat → Nat) (i : Nat) (s : GenState)
    {t ra : Int} (hok : 1 ≤ t ∧ t ≤ (MAX_TIMESTAMP : Int))
    (h : ¬(0 ≤ ra ∧ ra ≤ (MAX_TIMESTAMP : Int))) :
    generate_or_abort_core r i s t ra =
      (.error "`rollback_allowance` out of reasonable range", s, i) := by
  rw [generate_or_abort_core, if_neg (not_not_intro hok), if_pos h]

/-- Exhaustive description of a non-`none` branch decision. -/
lemma coreBranch_cases {r : Nat → Nat} {i : Nat} {s : GenState} {ts ra : Nat}
    {s2 : GenState} {i2 : Nat}
    (h : coreBranch r i s ts ra = some (s2, i2)) :
    (ts > s.timestamp ∧
      s2 = { s with
             timestamp := ts,
             counter_lo := getrandbits r i 24,
             last_status := .NEW_TIMESTAMP } ∧ i2 = i + 1) ∨
    (¬ts > s.timestamp ∧ ts + ra > s.timestamp ∧
      ¬s.counter_lo + 1 > MAX_COUNTER_LO ∧
      s2 = { s with
             counter_lo := s.counter_lo + 1,
             last_status := .COUNTER_LO_INC } ∧ i2 = i) ∨
    (¬ts > s.timestamp ∧ ts + ra > s.timestamp ∧
      s.counter_lo + 1 > MAX_COUNTER_LO ∧ ¬s.counter_hi + 1 > MAX_COUNTER_HI ∧
      s2 = { s with
             counter_lo := 0,
             counter_hi := s.counter_hi + 1,
             last_status := .COUNTER_HI_INC } ∧ i2 = i) ∨
    (¬ts > s.timestamp ∧ ts + ra > s.timestamp ∧
      s.counter_lo + 1 > MAX_COUNTER_LO ∧ s.counter_hi + 1 > MAX_COUNTER_HI ∧
      s2 = { s with
             counter_hi := 0,
             timestamp := s.timestamp + 1,
             counter_lo := getrandbits r i 24,
             last_status := .TIMESTAMP_INC } ∧ i2 = i + 1) := by
  rw [coreBranch] at h
  split at h
  · rename_i h1
    obtain ⟨hs, hi⟩ := Prod.mk.injEq .. ▸ Option.some.inj h
    exact Or.inl ⟨h1, hs.symm, hi.symm⟩
  · rename_i h1
    split at h
    · rename_i h2
      split at h
      · rename_i h3
        split at h
        · rename_i h4
          obtain ⟨hs, hi⟩ := Prod.mk.injEq .. ▸ Option.some.inj h
          exact Or.inr (Or.inr (Or.inr ⟨h1, h2, h3, h4, hs.symm, hi.symm⟩))
        · rename_i h4
          obtain ⟨hs, hi⟩ := Prod.mk.injEq .. ▸ Option.some.inj h
          exact Or.inr (Or.inr (Or.inl ⟨h1, h2, h3, h4, hs.symm, hi.symm⟩))
      · rename_i h3
        obtain ⟨hs, hi⟩ := Prod.mk.injEq .. ▸ Option.some.inj h
        exact Or.inr (Or.inl ⟨h1, h2, h3, hs.symm, hi.symm⟩)
    · cases h

/-- The branch decision is `none` exactly on significant rollback. -/
lemma coreBranch_none_iff {r : Nat → Nat} {i : Nat} {s : GenState}
    {ts ra : Nat} :
    coreBranch r i s ts ra = none ↔ ts + ra ≤ s.timestamp := by
  rw [coreBranch]
  split
  · rename_i h1
    simp only [reduceCtorEq, false_iff]
    omega
  · rename_i h1
    split
    · rename_i h2
      split
      · split
        · simp only [reduceCtorEq, false_iff]; omega
        · simp only [reduceCtorEq, false_iff]; omega
      · simp only [reduceCtorEq, false_iff]; omega
    · rename_i h2
      simp only [true_iff]
      omega

/-- `reseedStep` never touches the timestamp, counter_lo or status. -/
lemma reseedStep_fields (r : Nat → Nat) (i : Nat) (s : GenState) :
    (reseedStep r i s).1.timestamp = s.timestamp ∧
    (reseedStep r i s).1.counter_lo = s.counter_lo ∧
    (reseedStep r i s).1.last_status = s.last_status := by
  by_cases hc :
      (s.timestamp : Int) - (s.ts_counter_hi : Int) ≥ 1000 ∨ s.ts_counter_hi < 1
  · rw [reseedStep, if_pos hc]
    exact ⟨rfl, rfl, rfl⟩
  · rw [reseedStep, if_neg hc]
    exact ⟨rfl, rfl, rfl⟩

/-- After `reseedStep`, the watermark is seeded and recent (assuming the
timestamp is positive). -/
lemma reseedStep_settles (r : Nat → Nat) (i : Nat) (s : GenState)
    (h : 1 ≤ s.timestamp) :
    1 ≤ (reseedStep r i s).1.ts_counter_hi ∧
    (reseedStep r i s).1.timestamp < (reseedStep r i s).1.ts_counter_hi +
      1000 := by
  by_cases hc :
      (s.timestamp : Int) - (s.ts_counter_hi : Int) ≥ 1000 ∨ s.ts_counter_hi < 1
  · rw [reseedStep, if_pos hc]
    refine ⟨h, ?_⟩
    show s.timestamp < s.timestamp + 1000
    omega
  · rw [reseedStep, if_neg hc]
    push_neg at hc
    obtain ⟨hc1, hc2⟩ := hc
    refine ⟨?_, ?_⟩
    · show 1 ≤ s.ts_counter_hi
      omega
    · show s.timestamp < s.ts_counter_hi + 1000
      omega

/-- `reseedStep` is the identity when the state is settled. -/
lemma reseedStep_skip (r : Nat → Nat) (i : Nat) (s : GenState)
    (h1 : 1 ≤ s.ts_counter_hi) (h2 : s.timestamp < s.ts_counter_hi + 1000) :
    reseedStep r i s = (s, i) := by
  rw [reseedStep, if_neg]
  push_neg
  constructor
  · omega
  · omega

/-- Inversion of a successful `from_fields` call. -/
lemma from_fields_ok_inv {t ch cl e : Nat} {v : Scru128Id}
    (h : Scru128Id.from_fields t ch cl e = .ok v) :
    t ≤ MAX_TIMESTAMP ∧ ch ≤ MAX_COUNTER_HI ∧ cl ≤ MAX_COUNTER_LO ∧
      e ≤ 0xFFFFFFFF ∧ v.val = t * 2 ^ 80 + ch * 2 ^ 56 + cl * 2 ^ 32 + e := by
  rw [Scru128Id.from_fields] at h
  split at h
  · rename_i hc
    obtain ⟨hc1, hc2, hc3, hc4⟩ := hc
    rw [Scru128Id.ofInt] at h
    split at h
    · cases h
      refine ⟨hc1, hc2, hc3, hc4, ?_⟩
      show (t <<< 80) ||| (ch <<< 56) ||| (cl <<< 32) ||| e = _
      have b2 : MAX_COUNTER_HI = 2 ^ 24 - 1 := by decide
      have b3 : MAX_COUNTER_LO = 2 ^ 24 - 1 := by decide
      exact pack_eq (by omega) (by omega) (by omega)
    · cases h
  · cases h

/-- Structure of every successful `generate_or_abort_core` call. -/
lemma abort_core_ok_cases {r : Nat → Nat} {i : Nat} {s : GenState}
    {t ra : Int} {v : Scru128Id} {s' : GenState} {i' : Nat}
    (h : generate_or_abort_core r i s t ra = (.ok v, s', i')) :
    (1 ≤ t ∧ t ≤ (MAX_TIMESTAMP : Int)) ∧
    (0 ≤ ra ∧ ra ≤ (MAX_TIMESTAMP : Int)) ∧
    ∃ s2 i2, coreBranch r i s t.toNat ra.toNat = some (s2, i2) ∧
      (reseedStep r i2 s2).1 = s' ∧ i' = (reseedStep r i2 s2).2 + 1 ∧
      Scru128Id.from_fields s'.timestamp s'.counter_hi s'.counter_lo
        (getrandbits r (reseedStep r i2 s2).2 32) = .ok v := by
  by_cases hv1 : 1 ≤ t ∧ t ≤ (MAX_TIMESTAMP : Int)
  · by_cases hv2 : 0 ≤ ra ∧ ra ≤ (MAX_TIMESTAMP : Int)
    · rw [abort_core_valid_eq r i s hv1 hv2] at h
      refine ⟨hv1, hv2, ?_⟩
      rcases hcb : coreBranch r i s t.toNat ra.toNat with _ | ⟨s2, i2⟩
      · rw [hcb] at h
        cases h
      · rw [hcb] at h
        simp only at h
        rcases hff : Scru128Id.from_fields (reseedStep r i2 s2).1.timestamp
            (reseedStep r i2 s2).1.counter_hi (reseedStep r i2 s2).1.counter_lo
            (getrandbits r (reseedStep r i2 s2).2 32) with m | w
        · rw [hff] at h
          cases h
        · rw [hff] at h
          cases h
          exact ⟨s2, i2, rfl, rfl, rfl, hff⟩
    · rw [abort_core_invalid_ra r i s hv1 hv2] at h
      cases h
  · rw [abort_core_invalid_ts r i s hv1] at h
    cases h

/-- Every successful `generate_or_abort_core` call leaves a settled state
that matches the returned identifier's monotone prefix. -/
lemma abort_core_ok_invariant {r : Nat → Nat} {i : Nat} {s : GenState}
    {t ra : Int} {v : Scru128Id} {s' : GenState} {i' : Nat}
    (h : generate_or_abort_core r i s t ra = (.ok v, s', i')) :
    Settled s' ∧ v.val / 2 ^ 32 = s'.key ∧ v.timestamp = s'.timestamp ∧
      s'.timestamp * 2 ^ 80 ≤ v.val := by
  obtain ⟨hv1, hv2, s2, i2, hcb, hrs, hieq, hff⟩ := abort_core_ok_cases h
  obtain ⟨b1, b2, b3, b4, hval⟩ := from_fields_ok_inv hff
  have hpre := (reseedStep_fields r i2 s2).1
  rw [hrs] at hpre
  have htpos2 : 1 ≤ s2.timestamp := by
    rcases coreBranch_cases hcb with ⟨hgt, he, _⟩ | ⟨hng, _, _, he, _⟩ |
        ⟨hng, _, _, _, he, _⟩ | ⟨hng, _, _, _, he, _⟩
    · rw [he]
      show 1 ≤ t.toNat
      omega
    · rw [he]
      show 1 ≤ s.timestamp
      omega
    · rw [he]
      show 1 ≤ s.timestamp
      omega
    · rw [he]
      show 1 ≤ s.timestamp + 1
      omega
  have hsettle := reseedStep_settles r i2 s2 htpos2
  rw [hrs] at hsettle
  have hkey : v.val / 2 ^ 32 = s'.key := by
    rw [GenState.key]
    omega
  refine ⟨⟨?_, b1, b2, b3, hsettle.1, hsettle.2⟩, hkey, ?_, ?_⟩
  · rw [hpre]
    exact htpos2
  · rw [timestamp_eq]
    have hb : MAX_TIMESTAMP = 2 ^ 48 - 1 := by decide
    have hb2 : MAX_COUNTER_HI = 2 ^ 24 - 1 := by decide
    have hb3 : MAX_COUNTER_LO = 2 ^ 24 - 1 := by decide
    omega
  · omega

/-- From a settled state, a successful `generate_or_abort_core` call
strictly increases the monotone prefix. -/
lemma abort_core_ok_step {r : Nat → Nat} {i : Nat} {s : GenState}
    {t ra : Int} {v : Scru128Id} {s' : GenState} {i' : Nat} (hs : Settled s)
    (h : generate_or_abort_core r i s t ra = (.ok v, s', i')) :
    s.key < s'.key := by
  obtain ⟨hv1, hv2, s2, i2, hcb, hrs, hieq, hff⟩ := abort_core_ok_cases h
  obtain ⟨b1, b2, b3, b4, hval⟩ := from_fields_ok_inv hff
  obtain ⟨hs1, hs2b, hs3, hs4, hs5, hs6⟩ := hs
  have hbM : MAX_TIMESTAMP = 2 ^ 48 - 1 := by decide
  have hbH : MAX_COUNTER_HI = 2 ^ 24 - 1 := by decide
  have hbL : MAX_COUNTER_LO = 2 ^ 24 - 1 := by decide
  have hpre := reseedStep_fields r i2 s2
  rw [hrs] at hpre
  rcases coreBranch_cases hcb with ⟨hgt, he, _⟩ | ⟨hng, hra, hlo, he, _⟩ |
      ⟨hng, hra, hlo, hhi, he, _⟩ | ⟨hng, hra, hlo, hhi, he, _⟩
  · -- new timestamp: s'.timestamp = t.toNat > s.timestamp
    have hts : s'.timestamp = t.toNat := by
      rw [hpre.1, he]
    rw [GenState.key, GenState.key]
    have hch' : s'.counter_hi ≤ MAX_COUNTER_HI := b2
    have hcl' : s'.counter_lo ≤ MAX_COUNTER_LO := b3
    omega
  · -- counter_lo increment: the reseed step is skipped, s' = s2
    have hskip : reseedStep r i2 s2 = (s2, i2) := by
      apply reseedStep_skip
      · rw [he]
        exact hs5
      · rw [he]
        exact hs6
    rw [hskip] at hrs
    have hs' : s' = s2 := hrs.symm
    rw [hs', he, GenState.key, GenState.key]
    show (s.timestamp * 2 ^ 24 + s.counter_hi) * 2 ^ 24 + s.counter_lo <
      (s.timestamp * 2 ^ 24 + s.counter_hi) * 2 ^ 24 + (s.counter_lo + 1)
    omega
  · -- counter_hi increment: the reseed step is skipped, s' = s2
    have hskip : reseedStep r i2 s2 = (s2, i2) := by
      apply reseedStep_skip
      · rw [he]
        exact hs5
      · rw [he]
        exact hs6
    rw [hskip] at hrs
    have hs' : s' = s2 := hrs.symm
    rw [hs', he, GenState.key, GenState.key]
    show (s.timestamp * 2 ^ 24 + s.counter_hi) * 2 ^ 24 + s.counter_lo <
      (s.timestamp * 2 ^ 24 + (s.counter_hi + 1)) * 2 ^ 24 + 0
    omega
  · -- timestamp increment: s'.timestamp = s.timestamp + 1
    have hts : s'.timestamp = s.timestamp + 1 := by
      rw [hpre.1, he]
    rw [GenState.key, GenState.key]
    have hch' : s'.counter_hi ≤ MAX_COUNTER_HI := b2
    have hcl' : s'.counter_lo ≤ MAX_COUNTER_LO := b3
    omega

/-- The packed values of two identifiers compare strictly when their
monotone prefixes do. -/
lemma val_lt_of_key_lt {v w : Scru128Id} {k1 k2 : Nat}
    (hv : v.val / 2 ^ 32 = k1) (hw : w.val / 2 ^ 32 = k2) (hk : k1 < k2) :
    v.val < w.val := by
  omega

/-- A `generate_or_reset_core` call that produced an identifier without
recording a clock rollback is exactly its abort-policy core call. -/
lemma reset_core_ok_not_rollback {r : Nat → Nat} {i : Nat} {s : GenState}
    {t ra : Int} {v : Scru128Id} {s' : GenState} {i' : Nat}
    (h : generate_or_reset_core r i s t ra = (.ok v, s', i'))
    (hst : s'.last_status ≠ Status.CLOCK_ROLLBACK) :
    generate_or_abort_core r i s t ra = (.ok v, s', i') := by
  rw [generate_or_reset_core] at h
  rcases habort : generate_or_abort_core r i s t ra with ⟨res, s1, i1⟩
  rw [habort] at h
  cases res with
  | error m =>
    injection h with h1 h2
    cases h1
  | ok w =>
    simp only at h
    exact h
  | aborted =>
    simp only at h
    split at h
    · injection h with h1 h2
      cases h1
    · injection h with h1 h2
      cases h1
    · injection h with h1 h2
      injection h2 with h21 h22
      exfalso
      apply hst
      rw [← h21]

lemma reset_seq_chain_aux (r : Nat → Nat) (ra : Int) (ts : List Int) :
    ∀ (s0 : GenState) (i0 : Nat) (v : Scru128Id), Settled s0 →
      v.val / 2 ^ 32 = s0.key →
      (∀ p ∈ (runReset r ra ts s0 i0).1,
        p.1.isOk = true ∧ p.2.last_status ≠ Status.CLOCK_ROLLBACK) →
      List.Chain' Scru128Id.lt (v :: okIds (runReset r ra ts s0 i0).1) := by
  induction ts with
  | nil =>
    intro s0 i0 v _ _ _
    simp [runReset, okIds]
  | cons t ts ih =>
    intro s0 i0 v hset hkey h
    rcases hcall : generate_or_reset_core r i0 s0 t ra with ⟨out, s1, i1⟩
    have hrw : (runReset r ra (t :: ts) s0 i0).1 =
        (out, s1) :: (runReset r ra ts s1 i1).1 := by
      simp only [runReset, hcall]
    rw [hrw] at h ⊢
    obtain ⟨hok, hst⟩ := h _ (List.mem_cons_self _ _)
    rcases out with m | _ | w
    · cases hok
    · cases hok
    · have habort := reset_core_ok_not_rollback hcall hst
      obtain ⟨hset1, hkey1, _, _⟩ := abort_core_ok_invariant habort
      have hstep := abort_core_ok_step hset habort
      have hlt : Scru128Id.lt v w := val_lt_of_key_lt hkey hkey1 hstep
      have htail := ih s1 i1 w hset1 hkey1
        (fun p hp => h p (List.mem_cons_of_mem _ hp))
      have hids : okIds ((GenResult.ok w, s1) :: (runReset r ra ts s1 i1).1) =
          w :: okIds (runReset r ra ts s1 i1).1 := by
        simp [okIds]
      rw [hids]
      exact List.chain'_cons.mpr ⟨hlt, htail⟩

/-- C1 (amended): a sequence of `generate_or_reset_core` calls in which
every call produces an identifier without recording a clock rollback
returns strictly increasing identifiers.  (The original claim's hypothesis
— timestamps non-increasing and within the rollback allowance of the first
— does not suffice: artificial timestamp increments can push the internal
watermark past the allowance; see the counterexample.) -/
theorem reset_seq_monotonic (r : Nat → Nat) (ra : Int) (ts : List Int)
    (s0 : GenState) (i0 : Nat)
    (h : ∀ p ∈ (runReset r ra ts s0 i0).1,
      p.1.isOk = true ∧ p.2.last_status ≠ Status.CLOCK_ROLLBACK) :
    List.Chain' Scru128Id.lt (okIds (runReset r ra ts s0 i0).1) := by
  cases ts with
  | nil =>
    simp [runReset, okIds]
  | cons t ts =>
    rcases hcall : generate_or_reset_core r i0 s0 t ra with ⟨out, s1, i1⟩
    have hrw : (runReset r ra (t :: ts) s0 i0).1 =
        (out, s1) :: (runReset r ra ts s1 i1).1 := by
      simp only [runReset, hcall]
    rw [hrw] at h ⊢
    obtain ⟨hok, hst⟩ := h _ (List.mem_cons_self _ _)
    rcases out with m | _ | w
    · cases hok
    · cases hok
    · have habort := reset_core_ok_not_rollback hcall hst
      obtain ⟨hset1, hkey1, _, _⟩ := abort_core_ok_invariant habort
      have hids : okIds ((GenResult.ok w, s1) :: (runReset r ra ts s1 i1).1) =
          w :: okIds (runReset r ra ts s1 i1).1 := by
        simp [okIds]
      rw [hids]
      exact reset_seq_chain_aux r ra ts s1 i1 w hset1 hkey1
        (fun p hp => h p (List.mem_cons_of_mem _ hp))

/-- Witness for the amended C1: two reset-policy calls at advancing
timestamps from a fresh generator. -/
theorem reset_seq_monotonic_witness :
    (∀ p ∈ (runReset (fun _ => 0) 10000 [5, 6] GenState.init 0).1,
      p.1.isOk = true ∧ p.2.last_status ≠ Status.CLOCK_ROLLBACK) ∧
    List.Chain' Scru128Id.lt
      (okIds (runReset (fun _ => 0) 10000 [5, 6] GenState.init 0).1) :=
  ⟨by decide, reset_seq_monotonic (fun _ => 0) 10000 [5, 6] GenState.init 0
    (by decide)⟩

/-- Counterexample to C1 as stated: with allowance 1 and the constant
timestamp sequence 5, 5, 5 (non-increasing, each within the allowance of
the first), an adversarial-but-legal randomness stream drives a counter
overflow that advances the internal timestamp to 6, after which the third
call records a clock rollback and returns an identifier smaller than the
second one. -/
theorem reset_seq_monotonic_counterexample :
    (runReset (fun _ => 0xFFFFFF) 1 [5, 5, 5] GenState.init 0).1.map
        Prod.fst =
      [GenResult.ok ⟨7253554917687770770046975⟩,
        GenResult.ok ⟨7253554989745364807974911⟩,
        GenResult.ok ⟨7253554917687770770046975⟩] ∧
    ¬ Scru128Id.lt ⟨7253554989745364807974911⟩
      ⟨7253554917687770770046975⟩ := by
  constructor
  · decide
  · decide

/-- C2: the branch structure of `generate_or_abort_core`: `coreBranch` is
its decision block (as the last conjunct records), and the four cases
behave as specified. -/
theorem branch_structure (r : Nat → Nat) (i : Nat) (s : GenState)
    (ts ra : Nat) :
    (ts > s.timestamp →
      coreBranch r i s ts ra =
        some ({ s with
                timestamp := ts,
                counter_lo := getrandbits r i 24,
                last_status := .NEW_TIMESTAMP }, i + 1)) ∧
    (¬ts > s.timestamp → ts + ra > s.timestamp →
      ¬s.counter_lo + 1 > MAX_COUNTER_LO →
      coreBranch r i s ts ra =
        some ({ s with
                counter_lo := s.counter_lo + 1,
                last_status := .COUNTER_LO_INC }, i)) ∧
    (¬ts > s.timestamp → ts + ra > s.timestamp →
      s.counter_lo + 1 > MAX_COUNTER_LO → ¬s.counter_hi + 1 > MAX_COUNTER_HI →
      coreBranch r i s ts ra =
        some ({ s with
                counter_lo := 0,
                counter_hi := s.counter_hi + 1,
                last_status := .COUNTER_HI_INC }, i)) ∧
    (¬ts > s.timestamp → ts + ra > s.timestamp →
      s.counter_lo + 1 > MAX_COUNTER_LO → s.counter_hi + 1 > MAX_COUNTER_HI →
      coreBranch r i s ts ra =
        some ({ s with
                counter_hi := 0,
                timestamp := s.timestamp + 1,
                counter_lo := getrandbits r i 24,
                last_status := .TIMESTAMP_INC }, i + 1)) ∧
    (∀ t a : Int, (1 ≤ t ∧ t ≤ (MAX_TIMESTAMP : Int)) →
      (0 ≤ a ∧ a ≤ (MAX_TIMESTAMP : Int)) →
      generate_or_abort_core r i s t a =
        match coreBranch r i s t.toNat a.toNat with
        | none => (.aborted, s, i)
        | some (s2, i2) =>
          let p := reseedStep r i2 s2
          match Scru128Id.from_fields p.1.timestamp p.1.counter_hi
              p.1.counter_lo (getrandbits r p.2 32) with
          | .error m => (.error m, p.1, p.2 + 1)
          | .ok v => (.ok v, p.1, p.2 + 1)) := by
  refine ⟨?_, ?_, ?_, ?_, fun t a hv1 hv2 => abort_core_valid_eq r i s hv1 hv2⟩
  · intro hgt
    rw [coreBranch, if_pos hgt]
  · intro hng hra hlo
    rw [coreBranch, if_neg hng, if_pos hra, if_neg hlo]
  · intro hng hra hlo hhi
    rw [coreBranch, if_neg hng, if_pos hra, if_pos hlo, if_neg hhi]
  · intro hng hra hlo hhi
    rw [coreBranch, if_neg hng, if_pos hra, if_pos hlo, if_pos hhi]

/-- Witness for C2: the new-timestamp arm on a fresh generator. -/
theorem branch_structure_witness :
    coreBranch (fun _ => 0) 0 GenState.init 1 0 =
      some ({ GenState.init with
              timestamp := 1,
              counter_lo := getrandbits (fun _ => 0) 0 24,
              last_status := .NEW_TIMESTAMP }, 0 + 1) :=
  (branch_structure (fun _ => 0) 0 GenState.init 1 0).1 (by decide)

/-- Helper: the abort-policy core aborts without any state change on
significant rollback. -/
lemma abort_core_rollback (r : Nat → Nat) (i : Nat) (s : GenState)
    {t ra : Int} (h1 : 1 ≤ t) (h2 : t ≤ (MAX_TIMESTAMP : Int)) (h3 : 0 ≤ ra)
    (h4 : ra ≤ (MAX_TIMESTAMP : Int)) (hroll : t + ra ≤ (s.timestamp : Int)) :
    generate_or_abort_core r i s t ra = (.aborted, s, i) := by
  rw [abort_core_valid_eq r i s ⟨h1, h2⟩ ⟨h3, h4⟩,
    coreBranch_none_iff.mpr (by omega)]

/-- C6: on a timestamp regression beyond the allowance,
`generate_or_abort_core` returns `None` with every state field (and the rng
cursor) untouched, and any subsequent call still outside the allowance
relative to the unchanged state also returns `None`. -/
theorem abort_policy_rollback (r : Nat → Nat) (i : Nat) (s : GenState)
    (t ra : Int) (h1 : 1 ≤ t) (h2 : t ≤ (MAX_TIMESTAMP : Int)) (h3 : 0 ≤ ra)
    (h4 : ra ≤ (MAX_TIMESTAMP : Int)) (hroll : t + ra ≤ (s.timestamp : Int)) :
    generate_or_abort_core r i s t ra = (.aborted, s, i) ∧
    ∀ (r2 : Nat → Nat) (i2 : Nat) (t2 ra2 : Int), 1 ≤ t2 →
      t2 ≤ (MAX_TIMESTAMP : Int) → 0 ≤ ra2 → ra2 ≤ (MAX_TIMESTAMP : Int) →
      t2 + ra2 ≤ (s.timestamp : Int) →
      generate_or_abort_core r2 i2 s t2 ra2 = (.aborted, s, i2) :=
  ⟨abort_core_rollback r i s h1 h2 h3 h4 hroll,
    fun r2 i2 _ _ g1 g2 g3 g4 g5 =>
      abort_core_rollback r2 i2 s g1 g2 g3 g4 g5⟩

/-- Witness for C6 at a concrete rolled-back generator state. -/
theorem abort_policy_rollback_witness :
    generate_or_abort_core (fun _ => 0) 7 ⟨10, 1, 2, 9, .NEW_TIMESTAMP⟩ 5 2 =
      (.aborted, ⟨10, 1, 2, 9, .NEW_TIMESTAMP⟩, 7) ∧
    ∀ (r2 : Nat → Nat) (i2 : Nat) (t2 ra2 : Int), 1 ≤ t2 →
      t2 ≤ (MAX_TIMESTAMP : Int) → 0 ≤ ra2 → ra2 ≤ (MAX_TIMESTAMP : Int) →
      t2 + ra2 ≤ (((⟨10, 1, 2, 9, .NEW_TIMESTAMP⟩ : GenState)).timestamp : Int) →
      generate_or_abort_core r2 i2 ⟨10, 1, 2, 9, .NEW_TIMESTAMP⟩ t2 ra2 =
        (.aborted, ⟨10, 1, 2, 9, .NEW_TIMESTAMP⟩, i2) :=
  abort_policy_rollback (fun _ => 0) 7 ⟨10, 1, 2, 9, .NEW_TIMESTAMP⟩ 5 2
    (by decide) (by decide) (by decide) (by decide) (by decide)

/-- C9: every identifier-producing `generate_or_abort_core` call runs the
counter_hi reseed step on the branch-step state: when at least 1000 ms have
elapsed since the watermark or the watermark is unseeded, counter_hi is
refreshed with 24-bit randomness and the watermark set to the current
timestamp; otherwise both are left unchanged by this step. -/
theorem reseed_on_generate (r : Nat → Nat) (i : Nat) (s : GenState)
    (t ra : Int) (v : Scru128Id) (s' : GenState) (i' : Nat)
    (h : generate_or_abort_core r i s t ra = (.ok v, s', i')) :
    ∃ s2 i2, coreBranch r i s t.toNat ra.toNat = some (s2, i2) ∧
      (((s2.timestamp : Int) - (s2.ts_counter_hi : Int) ≥ 1000 ∨
          s2.ts_counter_hi < 1) →
        s'.counter_hi = getrandbits r i2 24 ∧
        s'.ts_counter_hi = s2.timestamp) ∧
      (¬((s2.timestamp : Int) - (s2.ts_counter_hi : Int) ≥ 1000 ∨
          s2.ts_counter_hi < 1) →
        s'.counter_hi = s2.counter_hi ∧
        s'.ts_counter_hi = s2.ts_counter_hi) := by
  obtain ⟨_, _, s2, i2, hcb, hrs, _, _⟩ := abort_core_ok_cases h
  refine ⟨s2, i2, hcb, ?_, ?_⟩
  · intro hc
    rw [reseedStep, if_pos hc] at hrs
    constructor
    · rw [← hrs]
    · rw [← hrs]
  · intro hc
    rw [reseedStep, if_neg hc] at hrs
    constructor
    · rw [← hrs]
    · rw [← hrs]

/-- Witness for C9: a fresh generator (unseeded watermark) reseeds. -/
theorem reseed_on_generate_witness :
    ∃ s2 i2,
      coreBranch (fun _ => 0) 0 GenState.init (1 : Int).toNat (0 : Int).toNat =
        some (s2, i2) ∧
      (((s2.timestamp : Int) - (s2.ts_counter_hi : Int) ≥ 1000 ∨
          s2.ts_counter_hi < 1) →
        (⟨1, 0, 0, 1, .NEW_TIMESTAMP⟩ : GenState).counter_hi =
          getrandbits (fun _ => 0) i2 24 ∧
        (⟨1, 0, 0, 1, .NEW_TIMESTAMP⟩ : GenState).ts_counter_hi =
          s2.timestamp) ∧
      (¬((s2.timestamp : Int) - (s2.ts_counter_hi : Int) ≥ 1000 ∨
          s2.ts_counter_hi < 1) →
        (⟨1, 0, 0, 1, .NEW_TIMESTAMP⟩ : GenState).counter_hi =
          s2.counter_hi ∧
        (⟨1, 0, 0, 1, .NEW_TIMESTAMP⟩ : GenState).ts_counter_hi =
          s2.ts_counter_hi) :=
  reseed_on_generate (fun _ => 0) 0 GenState.init 1 0
    ⟨1208925819614629174706176⟩ ⟨1, 0, 0, 1, .NEW_TIMESTAMP⟩ 3 (by decide)

/-- `from_fields` can only raise its own two messages. -/
lemma from_fields_error_msg {t ch cl e : Nat} {m : String}
    (h : Scru128Id.from_fields t ch cl e = .error m) :
    m = "invalid field value" ∨ m = "not a 128-bit unsigned integer" := by
  rw [Scru128Id.from_fields] at h
  split at h
  · rw [Scru128Id.ofInt] at h
    split at h
    · cases h
    · injection h with hm
      exact Or.inr hm.symm
  · injection h with hm
    exact Or.inl hm.symm

lemma reset_core_invalid_ts (r : Nat → Nat) (i : Nat) (s : GenState)
    {t ra : Int} (h : ¬(1 ≤ t ∧ t ≤ (MAX_TIMESTAMP : Int))) :
    generate_or_reset_core r i s t ra =
      (.error "`timestamp` must be a 48-bit positive integer", s, i) := by
  rw [generate_or_reset_core, abort_core_invalid_ts r i s h]

lemma reset_core_invalid_ra (r : Nat → Nat) (i : Nat) (s : GenState)
    {t ra : Int} (hok : 1 ≤ t ∧ t ≤ (MAX_TIMESTAMP : Int))
    (h : ¬(0 ≤ ra ∧ ra ≤ (MAX_TIMESTAMP : Int))) :
    generate_or_reset_core r i s t ra =
      (.error "`rollback_allowance` out of reasonable range", s, i) := by
  rw [generate_or_reset_core, abort_core_invalid_ra r i s hok h]

/-- C8: `generate_or_abort_core` raises one of its two argument-validation
errors exactly when `timestamp` is outside `[1, 2^48 - 1]` or
`rollback_allowance` is outside `[0, 2^48 - 1]`; in those cases (also for
`generate_or_reset_core`) the raise happens with the state and rng cursor
untouched. -/
theorem validation_errors (r : Nat → Nat) (i : Nat) (s : GenState)
    (t ra : Int) :
    (((generate_or_abort_core r i s t ra).1 =
        .error "`timestamp` must be a 48-bit positive integer" ∨
      (generate_or_abort_core r i s t ra).1 =
        .error "`rollback_allowance` out of reasonable range") ↔
      (¬(1 ≤ t ∧ t ≤ (MAX_TIMESTAMP : Int)) ∨
        ¬(0 ≤ ra ∧ ra ≤ (MAX_TIMESTAMP : Int)))) ∧
    (¬(1 ≤ t ∧ t ≤ (MAX_TIMESTAMP : Int)) →
      generate_or_abort_core r i s t ra =
        (.error "`timestamp` must be a 48-bit positive integer", s, i) ∧
      generate_or_reset_core r i s t ra =
        (.error "`timestamp` must be a 48-bit positive integer", s, i)) ∧
    ((1 ≤ t ∧ t ≤ (MAX_TIMESTAMP : Int)) →
      ¬(0 ≤ ra ∧ ra ≤ (MAX_TIMESTAMP : Int)) →
      generate_or_abort_core r i s t ra =
        (.error "`rollback_allowance` out of reasonable range", s, i) ∧
      generate_or_reset_core r i s t ra =
        (.error "`rollback_allowance` out of reasonable range", s, i)) := by
  refine ⟨⟨?_, ?_⟩, ?_, ?_⟩
  · intro h
    by_cases hv1 : 1 ≤ t ∧ t ≤ (MAX_TIMESTAMP : Int)
    · by_cases hv2 : 0 ≤ ra ∧ ra ≤ (MAX_TIMESTAMP : Int)
      · exfalso
        rw [abort_core_valid_eq r i s hv1 hv2] at h
        rcases hcb : coreBranch r i s t.toNat ra.toNat with _ | ⟨s2, i2⟩
        · rw [hcb] at h
          simp only at h
          rcases h with h | h <;> cases h
        · rw [hcb] at h
          simp only at h
          rcases hff : Scru128Id.from_fields (reseedStep r i2 s2).1.timestamp
              (reseedStep r i2 s2).1.counter_hi
              (reseedStep r i2 s2).1.counter_lo
              (getrandbits r (reseedStep r i2 s2).2 32) with m | w
          · rw [hff] at h
            simp only at h
            rcases from_fields_error_msg hff with hm | hm <;> subst hm <;>
              rcases h with h | h <;>
              (injection h with hmsg; exact absurd hmsg (by decide))
          · rw [hff] at h
            simp only at h
            rcases h with h | h <;> cases h
      · exact Or.inr hv2
    · exact Or.inl hv1
  · intro h
    rcases h with h | h
    · rw [abort_core_invalid_ts r i s h]
      exact Or.inl rfl
    · by_cases hv1 : 1 ≤ t ∧ t ≤ (MAX_TIMESTAMP : Int)
      · rw [abort_core_invalid_ra r i s hv1 h]
        exact Or.inr rfl
      · rw [abort_core_invalid_ts r i s hv1]
        exact Or.inl rfl
  · intro h
    exact ⟨abort_core_invalid_ts r i s h, reset_core_invalid_ts r i s h⟩
  · intro hok h
    exact ⟨abort_core_invalid_ra r i s hok h, reset_core_invalid_ra r i s hok h⟩

/-- Witness for C8: a zero timestamp is rejected without touching state. -/
theorem validation_errors_witness :
    generate_or_abort_core (fun _ => 0) 4 ⟨7, 1, 2, 7, .NEW_TIMESTAMP⟩ 0 5 =
      (.error "`timestamp` must be a 48-bit positive integer",
        ⟨7, 1, 2, 7, .NEW_TIMESTAMP⟩, 4) ∧
    generate_or_reset_core (fun _ => 0) 4 ⟨7, 1, 2, 7, .NEW_TIMESTAMP⟩ 0 5 =
      (.error "`timestamp` must be a 48-bit positive integer",
        ⟨7, 1, 2, 7, .NEW_TIMESTAMP⟩, 4) :=
  (validation_errors (fun _ => 0) 4 ⟨7, 1, 2, 7, .NEW_TIMESTAMP⟩ 0 5).2.1
    (by decide)

/-- C10: with all three monotone fields saturated, a counter-increment call
drives the artificial clock advance past the 48-bit width, so `from_fields`
raises `ValueError` instead of the call returning an identifier or `None`. -/
theorem counter_overflow_value_error (r : Nat → Nat) (i : Nat) (tsc : Nat)
    (st : Status) (t ra : Int) (h1 : 1 ≤ t) (h2 : t ≤ (MAX_TIMESTAMP : Int))
    (h3 : 0 ≤ ra) (h4 : ra ≤ (MAX_TIMESTAMP : Int))
    (h5 : (MAX_TIMESTAMP : Int) < t + ra) :
    (generate_or_abort_core r i
        ⟨MAX_TIMESTAMP, MAX_COUNTER_HI, MAX_COUNTER_LO, tsc, st⟩ t ra).1 =
      .error "invalid field value" := by
  have hM : MAX_TIMESTAMP = 281474976710655 := rfl
  have hH : MAX_COUNTER_HI = 16777215 := rfl
  have hL : MAX_COUNTER_LO = 16777215 := rfl
  set s : GenState :=
    ⟨MAX_TIMESTAMP, MAX_COUNTER_HI, MAX_COUNTER_LO, tsc, st⟩ with hsdef
  have hng : ¬ t.toNat > s.timestamp := by
    show ¬ t.toNat > MAX_TIMESTAMP
    omega
  have hra : t.toNat + ra.toNat > s.timestamp := by
    show t.toNat + ra.toNat > MAX_TIMESTAMP
    omega
  have hlo : s.counter_lo + 1 > MAX_COUNTER_LO := by
    show MAX_COUNTER_LO + 1 > MAX_COUNTER_LO
    omega
  have hhi : s.counter_hi + 1 > MAX_COUNTER_HI := by
    show MAX_COUNTER_HI + 1 > MAX_COUNTER_HI
    omega
  have hcb : coreBranch r i s t.toNat ra.toNat =
      some ({ s with
              counter_hi := 0,
              timestamp := s.timestamp + 1,
              counter_lo := getrandbits r i 24,
              last_status := .TIMESTAMP_INC }, i + 1) := by
    rw [coreBranch, if_neg hng, if_pos hra, if_pos hlo, if_pos hhi]
  rw [abort_core_valid_eq r i s ⟨h1, h2⟩ ⟨h3, h4⟩, hcb]
  simp only
  set s2 : GenState :=
    { s with
      counter_hi := 0,
      timestamp := s.timestamp + 1,
      counter_lo := getrandbits r i 24,
      last_status := .TIMESTAMP_INC } with hs2def
  have hff : Scru128Id.from_fields (reseedStep r (i + 1) s2).1.timestamp
      (reseedStep r (i + 1) s2).1.counter_hi
      (reseedStep r (i + 1) s2).1.counter_lo
      (getrandbits r (reseedStep r (i + 1) s2).2 32) =
      .error "invalid field value" := by
    rw [Scru128Id.from_fields, if_neg]
    intro hcond
    have hts := hcond.1
    rw [(reseedStep_fields r (i + 1) s2).1] at hts
    have hts2 : s2.timestamp = MAX_TIMESTAMP + 1 := rfl
    omega
  rw [hff]

/-- Witness for C10 at concrete arguments. -/
theorem counter_overflow_value_error_witness :
    (generate_or_abort_core (fun _ => 0) 0
        ⟨MAX_TIMESTAMP, MAX_COUNTER_HI, MAX_COUNTER_LO, 1, .COUNTER_HI_INC⟩
        (MAX_TIMESTAMP : Int) 1).1 = .error "invalid field value" :=
  counter_overflow_value_error (fun _ => 0) 0 1 .COUNTER_HI_INC
    (MAX_TIMESTAMP : Int) 1 (by decide) (by decide) (by decide) (by decide)
    (by decide)

/-- C5 (amended): on a rollback beyond the allowance with a strict
timestamp regression, `generate_or_reset_core` clears the timestamp and the
reseed watermark, re-runs the core once (which takes the new-timestamp
branch), records `CLOCK_ROLLBACK`, and returns an identifier whose
timestamp field is the input timestamp and which compares less than the
previously returned identifier.  (The claim's condition
`timestamp + rollback_allowance ≤ last_timestamp` alone also admits
`timestamp = last_timestamp` with a zero allowance, where the fresh ID need
not compare less; see the counterexample.) -/
theorem reset_on_significant_rollback
    (r0 : Nat → Nat) (i0 : Nat) (s0 : GenState) (t0 ra0 : Int)
    (v : Scru128Id) (s : GenState) (i : Nat)
    (hprev : generate_or_abort_core r0 i0 s0 t0 ra0 = (.ok v, s, i))
    (r : Nat → Nat) (t ra : Int) (h1 : 1 ≤ t) (h2 : t ≤ (MAX_TIMESTAMP : Int))
    (h3 : 0 ≤ ra) (h4 : ra ≤ (MAX_TIMESTAMP : Int))
    (hroll : t + ra ≤ (s.timestamp : Int))
    (hstrict : t < (s.timestamp : Int)) :
    ∃ w sN jN,
      generate_or_abort_core r i { s with timestamp := 0, ts_counter_hi := 0 }
          t ra = (.ok w, sN, jN) ∧
      generate_or_reset_core r i s t ra =
        (.ok w, { sN with last_status := .CLOCK_ROLLBACK }, jN) ∧
      sN.last_status = Status.NEW_TIMESTAMP ∧
      w.timestamp = t.toNat ∧
      Scru128Id.lt w v := by
  have hM : MAX_TIMESTAMP = 281474976710655 := rfl
  have hH : MAX_COUNTER_HI = 16777215 := rfl
  have hL : MAX_COUNTER_LO = 16777215 := rfl
  have habort1 : generate_or_abort_core r i s t ra = (.aborted, s, i) :=
    abort_core_rollback r i s h1 h2 h3 h4 hroll
  set sc : GenState := { s with timestamp := 0, ts_counter_hi := 0 }
    with hscdef
  have hgt : t.toNat > sc.timestamp := by
    show t.toNat > 0
    omega
  have hcb : coreBranch r i sc t.toNat ra.toNat =
      some ({ sc with
              timestamp := t.toNat,
              counter_lo := getrandbits r i 24,
              last_status := .NEW_TIMESTAMP }, i + 1) := by
    rw [coreBranch, if_pos hgt]
  set sN0 : GenState :=
    { sc with
      timestamp := t.toNat,
      counter_lo := getrandbits r i 24,
      last_status := .NEW_TIMESTAMP } with hsN0def
  have hrsd : reseedStep r (i + 1) sN0 =
      ({ sN0 with
         ts_counter_hi := sN0.timestamp,
         counter_hi := getrandbits r (i + 1) 24 }, i + 2) := by
    rw [reseedStep, if_pos]
    refine Or.inr ?_
    show (0 : Nat) < 1
    omega
  set sF : GenState :=
    { sN0 with
      ts_counter_hi := sN0.timestamp,
      counter_hi := getrandbits r (i + 1) 24 } with hsFdef
  have hchb : sF.counter_hi ≤ MAX_COUNTER_HI := by
    show r (i + 1) % 2 ^ 24 ≤ MAX_COUNTER_HI
    have := Nat.mod_lt (r (i + 1)) (show 0 < 2 ^ 24 by decide)
    omega
  have hclb : sF.counter_lo ≤ MAX_COUNTER_LO := by
    show r i % 2 ^ 24 ≤ MAX_COUNTER_LO
    have := Nat.mod_lt (r i) (show 0 < 2 ^ 24 by decide)
    omega
  have htb : sF.timestamp ≤ MAX_TIMESTAMP := by
    show t.toNat ≤ MAX_TIMESTAMP
    omega
  have heb : getrandbits r (i + 2) 32 ≤ 0xFFFFFFFF := by
    show r (i + 2) % 2 ^ 32 ≤ 0xFFFFFFFF
    have := Nat.mod_lt (r (i + 2)) (show 0 < 2 ^ 32 by decide)
    omega
  have hffok := from_fields_ok htb hchb hclb heb
  have habort2 : generate_or_abort_core r i sc t ra =
      (.ok ⟨sF.timestamp * 2 ^ 80 + sF.counter_hi * 2 ^ 56 +
          sF.counter_lo * 2 ^ 32 + getrandbits r (i + 2) 32⟩, sF, i + 3) := by
    rw [abort_core_valid_eq r i sc ⟨h1, h2⟩ ⟨h3, h4⟩, hcb]
    simp only
    rw [hrsd]
    simp only
    rw [hffok]
  have hreset : generate_or_reset_core r i s t ra =
      (.ok ⟨sF.timestamp * 2 ^ 80 + sF.counter_hi * 2 ^ 56 +
          sF.counter_lo * 2 ^ 32 + getrandbits r (i + 2) 32⟩,
        { sF with last_status := .CLOCK_ROLLBACK }, i + 3) := by
    rw [generate_or_reset_core, habort1]
    simp only
    rw [← hscdef, habort2]
  obtain ⟨_, _, _, hvlow⟩ := abort_core_ok_invariant hprev
  have htsF : sF.timestamp = t.toNat := rfl
  refine ⟨_, sF, i + 3, habort2, hreset, rfl, ?_, ?_⟩
  · rw [timestamp_eq]
    show (sF.timestamp * 2 ^ 80 + sF.counter_hi * 2 ^ 56 +
        sF.counter_lo * 2 ^ 32 + getrandbits r (i + 2) 32) / 2 ^ 80 % 2 ^ 48 =
      t.toNat
    rw [htsF] at *
    omega
  · show sF.timestamp * 2 ^ 80 + sF.counter_hi * 2 ^ 56 +
        sF.counter_lo * 2 ^ 32 + getrandbits r (i + 2) 32 < v.val
    have hlt : t.toNat < s.timestamp := by omega
    rw [htsF] at *
    omega

/-- Witness for the amended C5: a generator that last emitted at
timestamp 5 is asked for timestamp 4 with zero allowance. -/
theorem reset_on_significant_rollback_witness :
    ∃ w sN jN,
      generate_or_abort_core (fun _ => 0) 3
          { (⟨5, 0, 0, 5, .NEW_TIMESTAMP⟩ : GenState) with
            timestamp := 0, ts_counter_hi := 0 } 4 0 = (.ok w, sN, jN) ∧
      generate_or_reset_core (fun _ => 0) 3 ⟨5, 0, 0, 5, .NEW_TIMESTAMP⟩ 4 0 =
        (.ok w, { sN with last_status := .CLOCK_ROLLBACK }, jN) ∧
      sN.last_status = Status.NEW_TIMESTAMP ∧
      w.timestamp = (4 : Int).toNat ∧
      Scru128Id.lt w ⟨6044629098073145873530880⟩ :=
  reset_on_significant_rollback (fun _ => 0) 0 GenState.init 5 0
    ⟨6044629098073145873530880⟩ ⟨5, 0, 0, 5, .NEW_TIMESTAMP⟩ 3 (by decide)
    (fun _ => 0) 4 0 (by decide) (by decide) (by decide) (by decide)
    (by decide) (by decide)

/-- Counterexample to C5 as stated: at the boundary
`timestamp = last_timestamp`, `rollback_allowance = 0` (which satisfies the
claim's condition `timestamp + rollback_allowance ≤ last_timestamp`), the
reset-policy call returns an identifier that does NOT compare less than the
immediately preceding one. -/
theorem reset_on_significant_rollback_counterexample :
    generate_or_abort_core (fun n => if n < 3 then 0 else 0xFFFFFF) 0
        GenState.init 5 0 =
      (.ok ⟨6044629098073145873530880⟩, ⟨5, 0, 0, 5, .NEW_TIMESTAMP⟩, 3) ∧
    (5 : Int) + 0 ≤ (((⟨5, 0, 0, 5, .NEW_TIMESTAMP⟩ : GenState).timestamp :
      Int)) ∧
    generate_or_reset_core (fun n => if n < 3 then 0 else 0xFFFFFF) 3
        ⟨5, 0, 0, 5, .NEW_TIMESTAMP⟩ 5 0 =
      (.ok ⟨7253554917687770770046975⟩,
        ⟨5, 16777215, 16777215, 5, .CLOCK_ROLLBACK⟩, 6) ∧
    ¬ Scru128Id.lt ⟨7253554917687770770046975⟩
      ⟨6044629098073145873530880⟩ := by
  refine ⟨?_, ?_, ?_, ?_⟩
  · decide
  · decide
  · decide
  · decide

end Scru128
